import Mathlib

/-!
Verification of the plan-execution engine of the Bill-tracker agent.

The engine lives in `src/agent/nodes.py`: an intent-classifier node, a
planner node, nine plan step handlers, two routing predicates
(`route_after_intent`, `route_after_plan`), the scheduling function
`should_continue`, and an error terminal.  The shared `AgentState` record is
threaded through every node; tool adapters are external black boxes that
return a record carrying a `success` flag (they are modelled here as an
environment of total functions, one per adapter, following the tool contract:
input parameters in, a result record with `success` and payload out).

Python dictionary reads performed with `.get(key, default)` are modelled as
`Option`-valued fields read with `getD`; fields that the source always
populates before reading are modelled as plain fields.
-/

namespace BillTracker

/-- Python `str(x)` applied to an optional string: `None` prints as `"None"`. -/
def pyStr (o : Option String) : String := o.getD "None"

/-- Python `os.path.basename`: the part of the path after the last slash. -/
def pyBasename (p : String) : String := (p.splitOn "/").getLastD p

/-- Lookup in the `entities` mapping with a default, as Python
`state["entities"].get(key, default)`. -/
def entGet (es : List (String × String)) (k d : String) : String :=
  match es.find? (fun pr => pr.1 == k) with
  | some pr => pr.2
  | none => d

/-- One downloaded attachment record built by the email scanner
(`email_scanner.py` always stores both keys). -/
structure Attachment where
  filename : String
  filepath : String
deriving DecidableEq

/-- One email record in the scan results; `email_scanner.py` always stores
`id`, `subject`, `sender`, `date`, `body` and `attachments`. -/
structure Email where
  id : String
  subject : String
  sender : String
  date : String
  body : String
  attachments : List Attachment
deriving DecidableEq

/-- Result of the `scan_emails` adapter; both the success and the failure
shape of `email_scanner.py` carry a `results` list. -/
structure ScanResult where
  success : Bool
  error : Option String
  results : List Email
deriving DecidableEq

/-- Result of the `classify_intent` adapter (shape of
`llm_interface.classify_intent`); the engine reads every payload key with a
default, hence the `Option` fields. -/
structure ClassifyResult where
  success : Bool
  intent : Option String
  confidence : Option Rat
  entities : Option (List (String × String))
  error : Option String
deriving DecidableEq

/-- Result of the `parse_pdf` adapter, as read by the engine
(`extracted_text` and `file_path` are read with `.get`). -/
structure ParseResult where
  success : Bool
  extracted_text : Option String
  file_path : Option String
deriving DecidableEq

/-- One extracted structured record.  The payload produced by the extraction
adapter is opaque to the engine except for the `source` key, which
`data_extractor_node` overwrites. -/
structure BillItem where
  payload : List (String × String)
  source : Option String
deriving DecidableEq

/-- Result of the `extract_data` adapter; `llm_interface.extract_data`
always includes `extracted_data` (an empty record on failure). -/
structure ExtractResult where
  success : Bool
  error : Option String
  extracted_data : BillItem
deriving DecidableEq

/-- Result of the `save_bill` adapter. -/
structure SaveResult where
  success : Bool
  document_id : Option String
deriving DecidableEq

/-- Result of the `add_to_rag` adapter. -/
structure RagAddResult where
  success : Bool
  document_id : Option String
deriving DecidableEq

/-- One raw document returned by the `rag_search` adapter; the engine reads
every key with a `.get` default. -/
structure RagDoc where
  id : Option String
  text : Option String
  metadata : Option (List (String × String))
  relevance_score : Option Rat
deriving DecidableEq

/-- A cleaned document as rebuilt by `rag_retriever_node`. -/
structure CleanDoc where
  id : String
  text : String
  metadata : List (String × String)
  relevance_score : Rat
deriving DecidableEq

/-- Result of the `rag_search` adapter. -/
structure RagSearchResult where
  success : Bool
  error : Option String
  results : Option (List RagDoc)
deriving DecidableEq

/-- Result of the `query_database` adapter; its payload is stored whole and
never inspected by the engine. -/
structure QueryResult where
  success : Bool
  payload : List (String × String)
deriving DecidableEq

/-- Result of the `web_search` adapter. -/
structure WebResult where
  success : Bool
  results : Option (List String)
deriving DecidableEq

/-- Result of the response-generation adapter
(`llm_interface.generate_response`). -/
structure GenResult where
  success : Bool
  response : Option String
  error : Option String
deriving DecidableEq

/-- The tool-adapter environment: one total function per external capability
the engine calls, following the spec's adapter contract (structured input,
result record with a `success` flag; adapters do not raise).  The date
window passed to `scan_emails` is derived from the wall clock and is outside
the model; the context bundle passed to the generation adapter is opaque to
it, so only the query is passed here. -/
structure Env where
  classify_intent : String → ClassifyResult
  scan_emails : String → Bool → ScanResult
  parse_pdf : String → ParseResult
  extract_data : String → String → ExtractResult
  save_bill : BillItem → SaveResult
  add_to_rag : String → RagAddResult
  rag_search : String → RagSearchResult
  query_database : QueryResult
  web_search : String → WebResult
  generate_response : String → GenResult
  OPENAI_API_KEY : String

/-- Modelled from the spec: the `AgentState` type (`src/agent/state.py`) is
not among the provided sources; per the spec's data model, `SharedState` is
created once per request with the query, an empty plan, empty ledger and
empty error list, and each step-specific result slot is unset (`none`) until
its producing step runs. -/
structure AgentState where
  user_query : String
  intent : String := ""
  intent_confidence : Rat := 0
  entities : List (String × String) := []
  plan : List String := []
  completed_steps : List String := []
  errors : List String := []
  email_scan_results : Option ScanResult := none
  downloaded_files : Option (List String) := none
  pdf_parse_results : Option (List ParseResult) := none
  extracted_bills : Option (List BillItem) := none
  saved_bill_ids : Option (List String) := none
  retrieved_documents : Option (List CleanDoc) := none
  database_results : Option QueryResult := none
  web_search_results : Option (List String) := none
  final_response : Option String := none
deriving DecidableEq

/-- `intent_classifier_node` from `nodes.py`: early return when
`"intent_classification"` is already in the ledger; on adapter success write
intent, confidence and entities and append to the ledger; on failure append
an error string and set the intent to `"unknown"`. -/
def intent_classifier_node (env : Env) (st : AgentState) : AgentState :=
  if "intent_classification" ∈ st.completed_steps then st
  else
    let r := env.classify_intent st.user_query
    if r.success then
      { st with intent := r.intent.getD "unknown",
                intent_confidence := r.confidence.getD 0,
                entities := r.entities.getD [],
                completed_steps := st.completed_steps ++ ["intent_classification"] }
    else
      { st with errors := st.errors ++ ["Intent failed: " ++ pyStr r.error],
                intent := "unknown" }

/-- The planner's intent-to-plan table, the if/elif chain of `planner_node`
(which reads only `state["intent"]`). -/
def planOf (intent : String) : List String :=
  if intent = "scan_emails" then
    ["email_scanner", "pdf_processor", "data_extractor", "database_saver", "response_generator"]
  else if intent = "query_history" then
    ["rag_retriever", "response_generator"]
  else if intent = "analyze_spending" then
    ["database_query", "response_generator"]
  else if intent = "set_reminder" then
    ["database_query", "reminder_creator", "response_generator"]
  else if intent = "find_alternatives" then
    ["database_query", "web_searcher", "response_generator"]
  else if intent = "manual_add" then
    ["data_extractor", "database_saver", "response_generator"]
  else
    ["rag_retriever", "response_generator"]

/-- `planner_node` from `nodes.py`: writes the plan for the current intent
and appends `"planning"` to the ledger. -/
def planner_node (st : AgentState) : AgentState :=
  { st with plan := planOf st.intent,
            completed_steps := st.completed_steps ++ ["planning"] }

/-- The attachment requirement computed by `email_scanner_node` from the
`email_scan_type` entity. -/
def scanRequiresAttachments (st : AgentState) : Bool :=
  let scanType := entGet st.entities "email_scan_type" "general"
  scanType ∈ ["bills", "invoice", "receipts", "orders"]

/-- `email_scanner_node` from `nodes.py`: invokes the scan adapter; on
success stores the scan result and the list of attachment file paths, on
failure appends a `"Scan failed: ..."` error; always appends its own step
name to the ledger. -/
def email_scanner_node (env : Env) (st : AgentState) : AgentState :=
  let reqAtt := scanRequiresAttachments st
  let r := env.scan_emails st.user_query reqAtt
  let st' :=
    if r.success then
      { st with email_scan_results := some r,
                downloaded_files :=
                  some (if reqAtt then
                          r.results.flatMap (fun e => e.attachments.map (fun a => a.filepath))
                        else []) }
    else
      { st with errors := st.errors ++ ["Scan failed: " ++ pyStr r.error] }
  { st' with completed_steps := st'.completed_steps ++ ["email_scanner"] }

/-- The per-file loop of `pdf_processor_node`: collects successful parse
results and appends a `"Failed parsing ..."` error per failing file. -/
def pdfLoop (env : Env) : List String → List ParseResult × List String → List ParseResult × List String
  | [], acc => acc
  | p :: rest, (rs, es) =>
    let r := env.parse_pdf p
    if r.success then pdfLoop env rest (rs ++ [r], es)
    else pdfLoop env rest (rs, es ++ ["Failed parsing " ++ pyBasename p])

/-- `pdf_processor_node` from `nodes.py`: parses every downloaded `.pdf`
file, stores the parse results, and appends its own step name. -/
def pdf_processor_node (env : Env) (st : AgentState) : AgentState :=
  let files := (st.downloaded_files.getD []).filter (fun p => p.endsWith ".pdf")
  let out := pdfLoop env files ([], st.errors)
  { st with pdf_parse_results := some out.1,
            errors := out.2,
            completed_steps := st.completed_steps ++ ["pdf_processor"] }

/-- The PDF phase of `data_extractor_node`: for every parse result with a
non-empty `extracted_text`, call the extraction adapter and keep successful
items, overwriting their `source` with the PDF's file path. -/
def pdfPhase (env : Env) (scanType : String) : List ParseResult → List BillItem
  | [] => []
  | pdf :: rest =>
    match pdf.extracted_text with
    | some t =>
      if t = "" then pdfPhase env scanType rest
      else
        let r := env.extract_data t scanType
        if r.success then
          { r.extracted_data with source := pdf.file_path } :: pdfPhase env scanType rest
        else pdfPhase env scanType rest
    | none => pdfPhase env scanType rest

/-- The email-body phase of `data_extractor_node`: extract from each email
body, keeping successful items with an `"Email: <subject>"` source. -/
def emailPhase (env : Env) (scanType : String) : List Email → List BillItem
  | [] => []
  | e :: rest =>
    let r := env.extract_data e.body scanType
    if r.success then
      { r.extracted_data with source := some ("Email: " ++ e.subject) } :: emailPhase env scanType rest
    else emailPhase env scanType rest

/-- `data_extractor_node` from `nodes.py`: extracts from PDFs first and
falls back to email bodies only when the PDF phase produced no items; stores
the items and appends its own step name. -/
def data_extractor_node (env : Env) (st : AgentState) : AgentState :=
  let scanType := entGet st.entities "email_scan_type" "general"
  let items := pdfPhase env scanType (st.pdf_parse_results.getD [])
  let items :=
    if items.isEmpty then
      match st.email_scan_results with
      | some scan => emailPhase env scanType scan.results
      | none => []
    else items
  { st with extracted_bills := some items,
            completed_steps := st.completed_steps ++ ["data_extractor"] }

/-- The save loop of `database_saver_node` over the extracted items:
collects the document ids of successful saves. -/
def billSaveLoop (env : Env) : List BillItem → List String
  | [] => []
  | b :: rest =>
    let r := env.save_bill b
    if r.success then (r.document_id.getD "unknown") :: billSaveLoop env rest
    else billSaveLoop env rest

/-- The searchable text content `database_saver_node` builds for one email
(its f-string, with the body truncated to 1000 characters). -/
def emailDocText (scanType : String) (e : Email) : String :=
  "\nEMAIL DOCUMENT\n==============\nFrom: " ++ e.sender ++
  "\nSubject: " ++ e.subject ++ "\nDate: " ++ e.date ++
  "\nCategory: " ++ scanType ++
  "\n\nSummary: Email from " ++ e.sender ++ " about " ++ e.subject ++
  "\n\nBody:\n" ++ e.body.take 1000 ++ "\n"

/-- The email-indexing loop of `database_saver_node`: indexes each email's
structured text and collects the document ids of successful adds. -/
def emailIndexLoop (env : Env) (scanType : String) : List Email → List String
  | [] => []
  | e :: rest =>
    let r := env.add_to_rag (emailDocText scanType e)
    if r.success then (r.document_id.getD "") :: emailIndexLoop env scanType rest
    else emailIndexLoop env scanType rest

/-- `database_saver_node` from `nodes.py`: saves the extracted items, indexes
the scanned emails, stores the collected document ids and appends its own
step name.  (The raw-PDF `add_to_rag` calls of the source discard their
results and touch no state.) -/
def database_saver_node (env : Env) (st : AgentState) : AgentState :=
  let scanType := entGet st.entities "email_scan_type" "general"
  let ids1 := billSaveLoop env (st.extracted_bills.getD [])
  let ids2 :=
    match st.email_scan_results with
    | some scan => emailIndexLoop env scanType scan.results
    | none => []
  { st with saved_bill_ids := some (ids1 ++ ids2),
            completed_steps := st.completed_steps ++ ["database_saver"] }

/-- `rag_indexer_node` from `nodes.py`: only appends its own step name. -/
def rag_indexer_node (st : AgentState) : AgentState :=
  { st with completed_steps := st.completed_steps ++ ["rag_indexer"] }

/-- The per-document cleaning of `rag_retriever_node`. -/
def cleanDoc (d : RagDoc) : CleanDoc :=
  { id := d.id.getD "", text := d.text.getD "",
    metadata := d.metadata.getD [], relevance_score := d.relevance_score.getD 0 }

/-- `rag_retriever_node` from `nodes.py`: searches the vector store; on
success stores the cleaned documents, on failure stores the empty list (and
appends no error); always appends its own step name. -/
def rag_retriever_node (env : Env) (st : AgentState) : AgentState :=
  let r := env.rag_search st.user_query
  let st' :=
    if r.success then
      { st with retrieved_documents := some ((r.results.getD []).map cleanDoc) }
    else
      { st with retrieved_documents := some [] }
  { st' with completed_steps := st'.completed_steps ++ ["rag_retriever"] }

/-- `database_query_node` from `nodes.py`: queries the database; stores the
result only on success (no error recorded on failure); always appends its
own step name. -/
def database_query_node (env : Env) (st : AgentState) : AgentState :=
  let r := env.query_database
  let st' := if r.success then { st with database_results := some r } else st
  { st' with completed_steps := st'.completed_steps ++ ["database_query"] }

/-- `web_searcher_node` from `nodes.py`: stores the search results only on
success (no error recorded on failure); always appends its own step name. -/
def web_searcher_node (env : Env) (st : AgentState) : AgentState :=
  let r := env.web_search st.user_query
  let st' := if r.success then { st with web_search_results := some (r.results.getD []) } else st
  { st' with completed_steps := st'.completed_steps ++ ["web_searcher"] }

/-- `reminder_creator_node` from `nodes.py`: only appends its own step name. -/
def reminder_creator_node (st : AgentState) : AgentState :=
  { st with completed_steps := st.completed_steps ++ ["reminder_creator"] }

/-- `response_generator_node` from `nodes.py`: with no API key configured it
writes a configuration-error response; otherwise it calls the generation
adapter and writes either the generated response or an apology carrying the
error text; every branch appends its own step name and sets a final
response. -/
def response_generator_node (env : Env) (st : AgentState) : AgentState :=
  let st' :=
    if env.OPENAI_API_KEY = "" then
      { st with final_response := some "Configuration error: OPENAI_API_KEY not set in environment",
                errors := st.errors ++ ["OPENAI_API_KEY not set in environment"] }
    else
      let r := env.generate_response st.user_query
      if r.success then
        { st with final_response := some (r.response.getD "No response generated") }
      else
        let emsg := r.error.getD "Unknown error"
        { st with final_response :=
                    some ("I found the documents but couldn't generate a response. Error: " ++ emsg),
                  errors := st.errors ++ ["Response generation failed: " ++ emsg] }
  { st' with completed_steps := st'.completed_steps ++ ["response_generator"] }

/-- Python `repr` of a list of plain strings, element by element. -/
def pyCommaSep : List String → String
  | [] => ""
  | [s] => "'" ++ s ++ "'"
  | s :: rest => "'" ++ s ++ "', " ++ pyCommaSep rest

/-- Python `repr` of a list of plain strings, as interpolated by the
f-string of `error_handler_node`. -/
def pyListRepr (l : List String) : String := "[" ++ pyCommaSep l ++ "]"

/-- `error_handler_node` from `nodes.py`: writes a final response surfacing
the accumulated error list. -/
def error_handler_node (st : AgentState) : AgentState :=
  { st with final_response := some ("Errors encountered: " ++ pyListRepr st.errors) }

/-- `route_after_intent` from `nodes.py`. -/
def route_after_intent (st : AgentState) : String :=
  if st.intent = "unknown" then "error_handler" else "planner"

/-- `route_after_plan` from `nodes.py`. -/
def route_after_plan (st : AgentState) : String :=
  match st.plan with
  | [] => "response_generator"
  | s :: _ => s

/-- The scan of `should_continue` from `nodes.py`: the first plan step not
in the ledger, else `"end"`. -/
def nextStep : List String → List String → String
  | [], _ => "end"
  | s :: rest, completed => if s ∈ completed then nextStep rest completed else s

/-- `should_continue` from `nodes.py`: reads only `state["plan"]` and
`state["completed_steps"]`. -/
def should_continue (st : AgentState) : String :=
  nextStep st.plan st.completed_steps

/-- The scheduler as the spec words it: `next_step(plan, completed)` returns
the first step of the plan, in plan order, that is not a member of the
ledger, and the TERMINAL marker `"end"` when there is none. -/
def next_step_spec (plan completed : List String) : String :=
  (plan.find? (fun s => decide (s ∉ completed))).getD "end"

/-- The closed step-name vocabulary the planner emits and the graph
dispatches on. -/
def stepNames : List String :=
  ["email_scanner", "pdf_processor", "data_extractor", "database_saver",
   "rag_retriever", "database_query", "web_searcher", "reminder_creator",
   "response_generator"]

/-- Dispatch from a scheduled step name to its handler, as the graph edges
wire `should_continue`'s answer to the node of the same name. -/
def runStep (env : Env) (s : String) (st : AgentState) : AgentState :=
  if s = "email_scanner" then email_scanner_node env st
  else if s = "pdf_processor" then pdf_processor_node env st
  else if s = "data_extractor" then data_extractor_node env st
  else if s = "database_saver" then database_saver_node env st
  else if s = "rag_retriever" then rag_retriever_node env st
  else if s = "database_query" then database_query_node env st
  else if s = "web_searcher" then web_searcher_node env st
  else if s = "reminder_creator" then reminder_creator_node st
  else if s = "response_generator" then response_generator_node env st
  else st

/-- Modelled from the spec: the driving control loop (owned by the external
graph-execution collaborator, not among the provided sources) repeatedly
asks `should_continue` what is next, executes that step's handler, and stops
at the TERMINAL marker; the fuel argument counts the remaining step
executions. -/
def runSteps (env : Env) : Nat → AgentState → AgentState
  | 0, st => st
  | fuel + 1, st =>
    let s := should_continue st
    if s = "end" then st else runSteps env fuel (runStep env s st)

/-- Modelled from the spec: the sequence of step names the executor loop
visits, in visit order. -/
def runTrace (env : Env) : Nat → AgentState → List String
  | 0, _ => []
  | fuel + 1, st =>
    let s := should_continue st
    if s = "end" then [] else s :: runTrace env fuel (runStep env s st)

/-- Modelled from the spec: `SharedState` is created once per incoming
query. -/
def initialState (q : String) : AgentState := { user_query := q }

/-- Modelled from the spec: the whole engine walk — Classifier, Router one,
Planner, Router two, Executor loop, terminal — assembled outside the
provided sources by the graph collaborator. -/
def runEngine (env : Env) (q : String) : AgentState :=
  let st1 := intent_classifier_node env (initialState q)
  if route_after_intent st1 = "error_handler" then error_handler_node st1
  else
    let st2 := planner_node st1
    match st2.plan with
    | [] => response_generator_node env st2
    | _ :: _ => runSteps env (st2.plan.length + 1) st2

/-- The steps of the plan still missing from the ledger; its length is the
termination measure of the executor loop. -/
def unexec (st : AgentState) : List String :=
  st.plan.filter (fun s => decide (s ∉ st.completed_steps))

/-- An inert extracted record, used by the concrete adapter environments
below. -/
def okBill : BillItem := { payload := [], source := none }

/-- A concrete adapter environment whose every tool call succeeds, used to
instantiate the universally quantified theorems at a closed input. -/
def envAllOk : Env :=
  { classify_intent := fun _ =>
      { success := true, intent := some "scan_emails", confidence := some 1,
        entities := some [("email_scan_type", "bills")], error := none },
    scan_emails := fun _ _ => { success := true, error := none, results := [] },
    parse_pdf := fun _ =>
      { success := true, extracted_text := some "total 42", file_path := some "a.pdf" },
    extract_data := fun _ _ => { success := true, error := none, extracted_data := okBill },
    save_bill := fun _ => { success := true, document_id := some "d1" },
    add_to_rag := fun _ => { success := true, document_id := some "d2" },
    rag_search := fun _ => { success := true, error := none, results := some [] },
    query_database := { success := true, payload := [] },
    web_search := fun _ => { success := true, results := some [] },
    generate_response := fun _ => { success := true, response := some "done", error := none },
    OPENAI_API_KEY := "key" }

/-- A concrete adapter environment whose every tool call fails, used to
instantiate the failure-path theorems at a closed input. -/
def envAllFail : Env :=
  { classify_intent := fun _ =>
      { success := false, intent := none, confidence := none,
        entities := none, error := some "timeout" },
    scan_emails := fun _ _ => { success := false, error := some "boom", results := [] },
    parse_pdf := fun _ => { success := false, extracted_text := none, file_path := none },
    extract_data := fun _ _ => { success := false, error := some "boom", extracted_data := okBill },
    save_bill := fun _ => { success := false, document_id := none },
    add_to_rag := fun _ => { success := false, document_id := none },
    rag_search := fun _ => { success := false, error := some "boom", results := none },
    query_database := { success := false, payload := [] },
    web_search := fun _ => { success := false, results := none },
    generate_response := fun _ => { success := false, response := none, error := some "boom" },
    OPENAI_API_KEY := "key" }

/-- The list of every node of the engine, over a fixed adapter environment:
classifier, planner, the nine step handlers, the indexing stub node and the
two terminals. -/
def allNodes (env : Env) : List (AgentState → AgentState) :=
  [intent_classifier_node env, planner_node,
   email_scanner_node env, pdf_processor_node env, data_extractor_node env,
   database_saver_node env, rag_indexer_node, rag_retriever_node env,
   database_query_node env, web_searcher_node env, reminder_creator_node,
   response_generator_node env, error_handler_node]

/-- A bare state fresh from creation, used by the concrete counterexamples
and witnesses. -/
def stBare : AgentState := { user_query := "q" }

/-- A state carrying one successfully parsed PDF, used by the concrete
witness of the extraction-priority theorem. -/
def stPdf : AgentState :=
  { user_query := "q",
    pdf_parse_results :=
      some [{ success := true, extracted_text := some "total 42", file_path := some "a.pdf" }] }

/-! ### Ledger and plan facts about the individual nodes -/

theorem intent_classifier_ledger (env : Env) (st : AgentState) :
    ∃ tc te, (intent_classifier_node env st).completed_steps = st.completed_steps ++ tc ∧
      (intent_classifier_node env st).errors = st.errors ++ te ∧
      (intent_classifier_node env st).plan = st.plan := by
  unfold intent_classifier_node
  split
  · exact ⟨[], [], by simp⟩
  · dsimp only
    split
    · exact ⟨["intent_classification"], [], by simp⟩
    · exact ⟨[], ["Intent failed: " ++ pyStr (env.classify_intent st.user_query).error], by simp⟩

theorem planner_ledger (st : AgentState) :
    (planner_node st).completed_steps = st.completed_steps ++ ["planning"] ∧
      (planner_node st).errors = st.errors := ⟨rfl, rfl⟩

theorem email_scanner_ledger (env : Env) (st : AgentState) :
    ∃ te, (email_scanner_node env st).completed_steps = st.completed_steps ++ ["email_scanner"] ∧
      (email_scanner_node env st).errors = st.errors ++ te ∧
      (email_scanner_node env st).plan = st.plan ∧
      (email_scanner_node env st).final_response = st.final_response := by
  unfold email_scanner_node
  dsimp only
  split
  · exact ⟨[], rfl, by simp, rfl, rfl⟩
  · exact ⟨["Scan failed: " ++ pyStr (env.scan_emails st.user_query (scanRequiresAttachments st)).error],
      rfl, by simp, rfl, rfl⟩

theorem pdfLoop_extends (env : Env) :
    ∀ (l : List String) (rs : List ParseResult) (es : List String),
      ∃ rs' es', pdfLoop env l (rs, es) = (rs ++ rs', es ++ es') := by
  intro l
  induction l with
  | nil => exact fun rs es => ⟨[], [], by simp [pdfLoop]⟩
  | cons p rest ih =>
    intro rs es
    unfold pdfLoop
    dsimp only
    split
    · obtain ⟨rs', es', h⟩ := ih (rs ++ [env.parse_pdf p]) es
      exact ⟨[env.parse_pdf p] ++ rs', es', by simpa using h⟩
    · obtain ⟨rs', es', h⟩ := ih rs (es ++ ["Failed parsing " ++ pyBasename p])
      exact ⟨rs', ["Failed parsing " ++ pyBasename p] ++ es', by simpa using h⟩

theorem pdf_processor_ledger (env : Env) (st : AgentState) :
    ∃ te, (pdf_processor_node env st).completed_steps = st.completed_steps ++ ["pdf_processor"] ∧
      (pdf_processor_node env st).errors = st.errors ++ te ∧
      (pdf_processor_node env st).plan = st.plan ∧
      (pdf_processor_node env st).final_response = st.final_response := by
  unfold pdf_processor_node
  obtain ⟨rs', es', h⟩ := pdfLoop_extends env
    ((st.downloaded_files.getD []).filter (fun p => p.endsWith ".pdf")) [] st.errors
  refine ⟨es', rfl, ?_, rfl, rfl⟩
  dsimp only
  rw [h]

theorem data_extractor_ledger (env : Env) (st : AgentState) :
    (data_extractor_node env st).completed_steps = st.completed_steps ++ ["data_extractor"] ∧
      (data_extractor_node env st).errors = st.errors ∧
      (data_extractor_node env st).plan = st.plan ∧
      (data_extractor_node env st).final_response = st.final_response :=
  ⟨rfl, rfl, rfl, rfl⟩

theorem database_saver_ledger (env : Env) (st : AgentState) :
    (database_saver_node env st).completed_steps = st.completed_steps ++ ["database_saver"] ∧
      (database_saver_node env st).errors = st.errors ∧
      (database_saver_node env st).plan = st.plan ∧
      (database_saver_node env st).final_response = st.final_response :=
  ⟨rfl, rfl, rfl, rfl⟩

theorem rag_indexer_ledger (st : AgentState) :
    (rag_indexer_node st).completed_steps = st.completed_steps ++ ["rag_indexer"] ∧
      (rag_indexer_node st).errors = st.errors := ⟨rfl, rfl⟩

theorem rag_retriever_ledger (env : Env) (st : AgentState) :
    (rag_retriever_node env st).completed_steps = st.completed_steps ++ ["rag_retriever"] ∧
      (rag_retriever_node env st).errors = st.errors ∧
      (rag_retriever_node env st).plan = st.plan ∧
      (rag_retriever_node env st).final_response = st.final_response := by
  unfold rag_retriever_node
  dsimp only
  split <;> exact ⟨rfl, rfl, rfl, rfl⟩

theorem database_query_ledger (env : Env) (st : AgentState) :
    (database_query_node env st).completed_steps = st.completed_steps ++ ["database_query"] ∧
      (database_query_node env st).errors = st.errors ∧
      (database_query_node env st).plan = st.plan ∧
      (database_query_node env st).final_response = st.final_response := by
  unfold database_query_node
  dsimp only
  split <;> exact ⟨rfl, rfl, rfl, rfl⟩

theorem web_searcher_ledger (env : Env) (st : AgentState) :
    (web_searcher_node env st).completed_steps = st.completed_steps ++ ["web_searcher"] ∧
      (web_searcher_node env st).errors = st.errors ∧
      (web_searcher_node env st).plan = st.plan ∧
      (web_searcher_node env st).final_response = st.final_response := by
  unfold web_searcher_node
  dsimp only
  split <;> exact ⟨rfl, rfl, rfl, rfl⟩

theorem reminder_creator_ledger (st : AgentState) :
    (reminder_creator_node st).completed_steps = st.completed_steps ++ ["reminder_creator"] ∧
      (reminder_creator_node st).errors = st.errors ∧
      (reminder_creator_node st).plan = st.plan ∧
      (reminder_creator_node st).final_response = st.final_response :=
  ⟨rfl, rfl, rfl, rfl⟩

theorem response_generator_ledger (env : Env) (st : AgentState) :
    ∃ te, (response_generator_node env st).completed_steps = st.completed_steps ++ ["response_generator"] ∧
      (response_generator_node env st).errors = st.errors ++ te ∧
      (response_generator_node env st).plan = st.plan ∧
      (response_generator_node env st).final_response.isSome = true := by
  unfold response_generator_node
  dsimp only
  split
  · exact ⟨["OPENAI_API_KEY not set in environment"], rfl, rfl, rfl, rfl⟩
  · split
    · exact ⟨[], rfl, by simp, rfl, rfl⟩
    · exact ⟨["Response generation failed: " ++
        (env.generate_response st.user_query).error.getD "Unknown error"], rfl, rfl, rfl, rfl⟩

theorem error_handler_ledger (st : AgentState) :
    (error_handler_node st).completed_steps = st.completed_steps ∧
      (error_handler_node st).errors = st.errors ∧
      (error_handler_node st).final_response.isSome = true := ⟨rfl, rfl, rfl⟩

/-- Every handler in the step vocabulary appends exactly its own step name
to the ledger and leaves the plan unchanged. -/
theorem runStep_completed (env : Env) (s : String) (st : AgentState) (hs : s ∈ stepNames) :
    (runStep env s st).completed_steps = st.completed_steps ++ [s] ∧
      (runStep env s st).plan = st.plan := by
  simp only [stepNames, List.mem_cons, List.not_mem_nil, or_false] at hs
  rcases hs with rfl | rfl | rfl | rfl | rfl | rfl | rfl | rfl | rfl
  · obtain ⟨te, h1, h2, h3, h4⟩ := email_scanner_ledger env st
    simp only [runStep, String.reduceEq, reduceIte]
    exact ⟨h1, h3⟩
  · obtain ⟨te, h1, h2, h3, h4⟩ := pdf_processor_ledger env st
    simp only [runStep, String.reduceEq, reduceIte]
    exact ⟨h1, h3⟩
  · obtain ⟨h1, h2, h3, h4⟩ := data_extractor_ledger env st
    simp only [runStep, String.reduceEq, reduceIte]
    exact ⟨h1, h3⟩
  · obtain ⟨h1, h2, h3, h4⟩ := database_saver_ledger env st
    simp only [runStep, String.reduceEq, reduceIte]
    exact ⟨h1, h3⟩
  · obtain ⟨h1, h2, h3, h4⟩ := rag_retriever_ledger env st
    simp only [runStep, String.reduceEq, reduceIte]
    exact ⟨h1, h3⟩
  · obtain ⟨h1, h2, h3, h4⟩ := database_query_ledger env st
    simp only [runStep, String.reduceEq, reduceIte]
    exact ⟨h1, h3⟩
  · obtain ⟨h1, h2, h3, h4⟩ := web_searcher_ledger env st
    simp only [runStep, String.reduceEq, reduceIte]
    exact ⟨h1, h3⟩
  · obtain ⟨h1, h2, h3, h4⟩ := reminder_creator_ledger st
    simp only [runStep, String.reduceEq, reduceIte]
    exact ⟨h1, h3⟩
  · obtain ⟨te, h1, h2, h3, h4⟩ := response_generator_ledger env st
    simp only [runStep, String.reduceEq, reduceIte]
    exact ⟨h1, h3⟩

/-! ### Scheduler facts -/

theorem nextStep_eq_spec (plan completed : List String) :
    nextStep plan completed = next_step_spec plan completed := by
  induction plan with
  | nil => rfl
  | cons s rest ih =>
    unfold nextStep next_step_spec
    by_cases h : s ∈ completed
    · simp only [if_pos h, List.find?_cons]
      rw [ih]
      unfold next_step_spec
      simp [h]
    · simp [List.find?_cons, h]

theorem nextStep_end_of_all (plan completed : List String)
    (h : ∀ s ∈ plan, s ∈ completed) : nextStep plan completed = "end" := by
  induction plan with
  | nil => rfl
  | cons s rest ih =>
    unfold nextStep
    rw [if_pos (h s (by simp))]
    exact ih fun t ht => h t (by simp [ht])

theorem nextStep_mem (plan completed : List String) (h : nextStep plan completed ≠ "end") :
    nextStep plan completed ∈ plan ∧ nextStep plan completed ∉ completed := by
  induction plan with
  | nil => exact absurd rfl h
  | cons s rest ih =>
    unfold nextStep at h ⊢
    by_cases hs : s ∈ completed
    · rw [if_pos hs] at h ⊢
      obtain ⟨h1, h2⟩ := ih h
      exact ⟨List.mem_cons_of_mem _ h1, h2⟩
    · rw [if_neg hs] at h ⊢
      exact ⟨List.mem_cons_self _ _, hs⟩

theorem unexec_decreases (env : Env) (st : AgentState)
    (hvocab : ∀ s ∈ st.plan, s ∈ stepNames)
    (hne : should_continue st ≠ "end") :
    (unexec (runStep env (should_continue st) st)).length < (unexec st).length := by
  obtain ⟨hmem, hnotc⟩ := nextStep_mem st.plan st.completed_steps hne
  obtain ⟨hcomp, hplan⟩ := runStep_completed env (should_continue st) st
    (hvocab _ hmem)
  unfold unexec
  rw [hcomp, hplan]
  have hfilter : st.plan.filter (fun s => decide (s ∉ st.completed_steps ++ [should_continue st])) =
      (st.plan.filter (fun s => decide (s ∉ st.completed_steps))).filter
        (fun s => decide (s ≠ should_continue st)) := by
    rw [List.filter_filter]
    apply List.filter_congr
    intro x _
    simp only [List.mem_append, List.mem_singleton, decide_not, Bool.and_comm]
    by_cases h1 : x ∈ st.completed_steps <;> by_cases h2 : x = should_continue st <;>
      simp [h1, h2]
  rw [hfilter]
  have hin : should_continue st ∈ st.plan.filter (fun s => decide (s ∉ st.completed_steps)) := by
    rw [List.mem_filter]
    exact ⟨hmem, by simpa using hnotc⟩
  calc ((st.plan.filter (fun s => decide (s ∉ st.completed_steps))).filter
          (fun s => decide (s ≠ should_continue st))).length
      < (st.plan.filter (fun s => decide (s ∉ st.completed_steps))).length := by
        apply List.length_filter_lt_length_iff_exists.mpr
        exact ⟨should_continue st, hin, by simp⟩

theorem runSteps_plan (env : Env) (fuel : Nat) (st : AgentState) :
    (runSteps env fuel st).plan = st.plan := by
  induction fuel generalizing st with
  | zero => rfl
  | succ n ih =>
    unfold runSteps
    dsimp only
    split
    · rfl
    · next hne =>
      rw [ih]
      by_cases hs : should_continue st ∈ stepNames
      · exact (runStep_completed env _ st hs).2
      · have : runStep env (should_continue st) st = st := by
          unfold runStep
          simp only [stepNames, List.mem_cons, List.not_mem_nil, or_false,
            not_or] at hs
          obtain ⟨n1, n2, n3, n4, n5, n6, n7, n8, n9⟩ := hs
          simp [n1, n2, n3, n4, n5, n6, n7, n8, n9]
        rw [this]

/-- With enough fuel (the number of still-unexecuted plan steps) the
executor loop reaches a state whose scheduling decision is TERMINAL. -/
theorem runSteps_terminates (env : Env) (fuel : Nat) (st : AgentState)
    (hvocab : ∀ s ∈ st.plan, s ∈ stepNames)
    (hfuel : (unexec st).length ≤ fuel) :
    should_continue (runSteps env fuel st) = "end" := by
  induction fuel generalizing st with
  | zero =>
    have hnil : unexec st = [] := List.length_eq_zero.mp (Nat.le_zero.mp hfuel)
    apply nextStep_end_of_all
    intro s hs
    by_contra hc
    have : s ∈ unexec st := by
      rw [unexec, List.mem_filter]
      exact ⟨hs, by simpa using hc⟩
    simp [hnil] at this
  | succ n ih =>
    unfold runSteps
    dsimp only
    split
    · assumption
    · next hne =>
      apply ih
      · intro s hs
        apply hvocab
        by_cases hv : should_continue st ∈ stepNames
        · rwa [(runStep_completed env _ st hv).2] at hs
        · have heq : runStep env (should_continue st) st = st := by
            unfold runStep
            simp only [stepNames, List.mem_cons, List.not_mem_nil, or_false,
              not_or] at hv
            obtain ⟨n1, n2, n3, n4, n5, n6, n7, n8, n9⟩ := hv
            simp [n1, n2, n3, n4, n5, n6, n7, n8, n9]
          rwa [heq] at hs
      · have hdec := unexec_decreases env st hvocab hne
        omega

theorem unexec_le_plan_length (st : AgentState) : (unexec st).length ≤ st.plan.length :=
  List.length_filter_le _ _

/-- Dispatching an unknown step name leaves the state untouched; a known one
appends its own name. -/
theorem runStep_cases (env : Env) (s : String) (st : AgentState) :
    ((runStep env s st).completed_steps = st.completed_steps ++ [s] ∧
      (runStep env s st).plan = st.plan) ∨ runStep env s st = st := by
  by_cases hs : s ∈ stepNames
  · exact Or.inl (runStep_completed env s st hs)
  · refine Or.inr ?_
    unfold runStep
    simp only [stepNames, List.mem_cons, List.not_mem_nil, or_false, not_or] at hs
    obtain ⟨n1, n2, n3, n4, n5, n6, n7, n8, n9⟩ := hs
    simp [n1, n2, n3, n4, n5, n6, n7, n8, n9]

/-- Dispatching a name outside the step vocabulary touches nothing. -/
theorem runStep_unknown (env : Env) (s : String) (st : AgentState) (hs : s ∉ stepNames) :
    runStep env s st = st := by
  unfold runStep
  simp only [stepNames, List.mem_cons, List.not_mem_nil, or_false, not_or] at hs
  obtain ⟨n1, n2, n3, n4, n5, n6, n7, n8, n9⟩ := hs
  simp [n1, n2, n3, n4, n5, n6, n7, n8, n9]

/-- Every plan the planner can emit draws from the step vocabulary. -/
theorem planOf_vocab (intent : String) : ∀ s ∈ planOf intent, s ∈ stepNames := by
  unfold planOf
  split_ifs <;> decide

/-- Every plan the planner can emit ends in the response generation step. -/
theorem planOf_has_response_generator (intent : String) :
    "response_generator" ∈ planOf intent := by
  unfold planOf
  split_ifs <;> decide

/-- No step name of the vocabulary is the terminal marker. -/
theorem stepNames_ne_end : ∀ s ∈ stepNames, s ≠ "end" := by decide

/-- On a plan free of the literal terminal marker, a TERMINAL answer means
every plan step is already in the ledger. -/
theorem nextStep_end_all (plan completed : List String)
    (hne : ∀ s ∈ plan, s ≠ "end") (h : nextStep plan completed = "end") :
    ∀ s ∈ plan, s ∈ completed := by
  induction plan with
  | nil => intro s hs; cases hs
  | cons x rest ih =>
    intro s hs
    unfold nextStep at h
    by_cases hx : x ∈ completed
    · rw [if_pos hx] at h
      rcases List.mem_cons.mp hs with rfl | hs'
      · exact hx
      · exact ih (fun t ht => hne t (by simp [ht])) h s hs'
    · rw [if_neg hx] at h
      exact absurd h (hne x (by simp))

/-- The "a final response is already set" invariant survives every step
dispatch: handlers other than the response generator preserve the final
response and append only their own name, and the response generator always
sets one. -/
theorem runStep_final_some (env : Env) (s : String) (st : AgentState)
    (hinv : "response_generator" ∈ st.completed_steps → st.final_response.isSome = true) :
    "response_generator" ∈ (runStep env s st).completed_steps →
      (runStep env s st).final_response.isSome = true := by
  by_cases hs : s ∈ stepNames
  · simp only [stepNames, List.mem_cons, List.not_mem_nil, or_false] at hs
    rcases hs with rfl | rfl | rfl | rfl | rfl | rfl | rfl | rfl | rfl
    · obtain ⟨te, h1, _, _, h4⟩ := email_scanner_ledger env st
      intro h
      simp only [runStep, String.reduceEq, reduceIte] at h ⊢
      rw [h1] at h
      rw [h4]
      rcases List.mem_append.mp h with h | h
      · exact hinv h
      · exact absurd h (by decide)
    · obtain ⟨te, h1, _, _, h4⟩ := pdf_processor_ledger env st
      intro h
      simp only [runStep, String.reduceEq, reduceIte] at h ⊢
      rw [h1] at h
      rw [h4]
      rcases List.mem_append.mp h with h | h
      · exact hinv h
      · exact absurd h (by decide)
    · obtain ⟨h1, _, _, h4⟩ := data_extractor_ledger env st
      intro h
      simp only [runStep, String.reduceEq, reduceIte] at h ⊢
      rw [h1] at h
      rw [h4]
      rcases List.mem_append.mp h with h | h
      · exact hinv h
      · exact absurd h (by decide)
    · obtain ⟨h1, _, _, h4⟩ := database_saver_ledger env st
      intro h
      simp only [runStep, String.reduceEq, reduceIte] at h ⊢
      rw [h1] at h
      rw [h4]
      rcases List.mem_append.mp h with h | h
      · exact hinv h
      · exact absurd h (by decide)
    · obtain ⟨h1, _, _, h4⟩ := rag_retriever_ledger env st
      intro h
      simp only [runStep, String.reduceEq, reduceIte] at h ⊢
      rw [h1] at h
      rw [h4]
      rcases List.mem_append.mp h with h | h
      · exact hinv h
      · exact absurd h (by decide)
    · obtain ⟨h1, _, _, h4⟩ := database_query_ledger env st
      intro h
      simp only [runStep, String.reduceEq, reduceIte] at h ⊢
      rw [h1] at h
      rw [h4]
      rcases List.mem_append.mp h with h | h
      · exact hinv h
      · exact absurd h (by decide)
    · obtain ⟨h1, _, _, h4⟩ := web_searcher_ledger env st
      intro h
      simp only [runStep, String.reduceEq, reduceIte] at h ⊢
      rw [h1] at h
      rw [h4]
      rcases List.mem_append.mp h with h | h
      · exact hinv h
      · exact absurd h (by decide)
    · obtain ⟨h1, _, _, h4⟩ := reminder_creator_ledger st
      intro h
      simp only [runStep, String.reduceEq, reduceIte] at h ⊢
      rw [h1] at h
      rw [h4]
      rcases List.mem_append.mp h with h | h
      · exact hinv h
      · exact absurd h (by decide)
    · obtain ⟨te, _, _, _, h4⟩ := response_generator_ledger env st
      intro _
      simp only [runStep, String.reduceEq, reduceIte]
      exact h4
  · rw [runStep_unknown env s st hs]
    exact hinv

/-- The invariant of `runStep_final_some`, carried through the whole
executor loop. -/
theorem runSteps_final_some (env : Env) (fuel : Nat) (st : AgentState)
    (hinv : "response_generator" ∈ st.completed_steps → st.final_response.isSome = true) :
    "response_generator" ∈ (runSteps env fuel st).completed_steps →
      (runSteps env fuel st).final_response.isSome = true := by
  induction fuel generalizing st with
  | zero => exact hinv
  | succ n ih =>
    unfold runSteps
    dsimp only
    split
    · exact hinv
    · exact ih _ (runStep_final_some env _ st hinv)

/-- The intent classifier leaves the fresh state's ledger either holding
exactly the classification step or untouched. -/
theorem classifier_initial_ledger (env : Env) (q : String) :
    (intent_classifier_node env (initialState q)).completed_steps = ["intent_classification"] ∨
      (intent_classifier_node env (initialState q)).completed_steps = [] := by
  unfold intent_classifier_node initialState
  rw [if_neg (by simp)]
  dsimp only
  split
  · left; rfl
  · right; rfl

theorem nextStep_append_done (done l c : List String) (h : ∀ s ∈ done, s ∈ c) :
    nextStep (done ++ l) c = nextStep l c := by
  induction done with
  | nil => rfl
  | cons d rest ih =>
    simp only [List.cons_append]
    rw [show nextStep (d :: (rest ++ l)) c =
          if d ∈ c then nextStep (rest ++ l) c else d from rfl]
    rw [if_pos (h d (by simp))]
    exact ih fun t ht => h t (by simp [ht])

/-- When every remaining plan step is a known, fresh step name, the executor
loop visits exactly the remaining steps, in plan order. -/
theorem runTrace_exact (env : Env) : ∀ (rest : List String) (st : AgentState) (done : List String),
    st.plan = done ++ rest → rest.Nodup → (∀ s ∈ rest, s ∈ stepNames) →
    (∀ s ∈ rest, s ∉ st.completed_steps) → (∀ s ∈ done, s ∈ st.completed_steps) →
    runTrace env rest.length st = rest := by
  intro rest
  induction rest with
  | nil => intro st done _ _ _ _ _; rfl
  | cons x xs ih =>
    intro st done hplan hnodup hvocab hfresh hdone
    have hx : should_continue st = x := by
      unfold should_continue
      rw [hplan, nextStep_append_done done (x :: xs) st.completed_steps hdone]
      unfold nextStep
      exact if_neg (hfresh x (by simp))
    have hxe : x ≠ "end" := by
      have hv := hvocab x (by simp)
      revert hv
      simp only [stepNames, List.mem_cons, List.not_mem_nil, or_false]
      rintro (rfl | rfl | rfl | rfl | rfl | rfl | rfl | rfl | rfl) <;> decide
    have hxv : x ∈ stepNames := hvocab x (by simp)
    obtain ⟨hcomp, hplan'⟩ := runStep_completed env x st hxv
    show runTrace env (xs.length + 1) st = x :: xs
    unfold runTrace
    dsimp only
    rw [hx, if_neg hxe]
    congr 1
    apply ih (runStep env x st) (done ++ [x])
    · rw [hplan', hplan]
      simp
    · exact hnodup.of_cons
    · exact fun s hs => hvocab s (by simp [hs])
    · intro s hs
      rw [hcomp]
      simp only [List.mem_append, List.mem_singleton, not_or]
      refine ⟨hfresh s (by simp [hs]), ?_⟩
      intro hsx
      exact (List.nodup_cons.mp hnodup).1 (hsx ▸ hs)
    · intro s hs
      rw [hcomp]
      rcases List.mem_append.mp hs with h | h
      · exact List.mem_append.mpr (Or.inl (hdone s h))
      · exact List.mem_append.mpr (Or.inr h)

/-! ### Claim theorems -/

/-- C1: `should_continue` returns the first step of the plan, in plan order,
that is not in the ledger, and the terminal marker `"end"` when every plan
step is in the ledger; it is a pure function of the pair
(plan, completed): it reads no other field of the state, so repeated calls
on the same pair agree (and, being a Lean function, it mutates nothing). -/
theorem should_continue_first_unexecuted :
    (∀ st1 st2 : AgentState, st1.plan = st2.plan →
      st1.completed_steps = st2.completed_steps → should_continue st1 = should_continue st2) ∧
    (∀ st : AgentState, should_continue st = next_step_spec st.plan st.completed_steps) ∧
    (∀ st : AgentState, (∀ s ∈ st.plan, s ∈ st.completed_steps) → should_continue st = "end") := by
  refine ⟨?_, ?_, ?_⟩
  · intro st1 st2 hp hc
    unfold should_continue
    rw [hp, hc]
  · intro st
    exact nextStep_eq_spec st.plan st.completed_steps
  · intro st h
    exact nextStep_end_of_all st.plan st.completed_steps h

/-- Witness for C1 at concrete inputs: two states agreeing on the pair but
differing elsewhere get the same answer, and a fully completed plan yields
the terminal marker. -/
theorem should_continue_first_unexecuted_witness :
    should_continue { user_query := "a", plan := ["rag_retriever"], completed_steps := ["x"] } =
      should_continue { user_query := "b", plan := ["rag_retriever"], completed_steps := ["x"] } ∧
    should_continue { user_query := "a", plan := ["rag_retriever"],
                      completed_steps := ["rag_retriever"] } = "end" :=
  ⟨should_continue_first_unexecuted.1 _ _ rfl rfl,
   should_continue_first_unexecuted.2.2 _ (by decide)⟩

/-- C2: every handler in the plan vocabulary appends exactly its own step
name to the ledger on every invocation, and the executor loop on any plan
drawn from the vocabulary terminates after at most `plan.length` step
executions — so at most `plan.length + 1` scheduling decisions, the last of
which is TERMINAL. -/
theorem scheduler_terminates :
    (∀ (env : Env) (s : String) (st : AgentState), s ∈ stepNames →
      (runStep env s st).completed_steps = st.completed_steps ++ [s]) ∧
    (∀ (env : Env) (st : AgentState), (∀ s ∈ st.plan, s ∈ stepNames) →
      should_continue (runSteps env st.plan.length st) = "end") := by
  refine ⟨?_, ?_⟩
  · intro env s st hs
    exact (runStep_completed env s st hs).1
  · intro env st hvocab
    exact runSteps_terminates env st.plan.length st hvocab (unexec_le_plan_length st)

/-- Witness for C2 at a concrete plan and environment. -/
theorem scheduler_terminates_witness :
    (runStep envAllOk "reminder_creator" { user_query := "q" }).completed_steps =
      ([] : List String) ++ ["reminder_creator"] ∧
    should_continue (runSteps envAllOk
      ({ user_query := "q", plan := ["database_query", "response_generator"] } : AgentState).plan.length
      { user_query := "q", plan := ["database_query", "response_generator"] }) = "end" :=
  ⟨scheduler_terminates.1 envAllOk "reminder_creator" _ (by decide),
   scheduler_terminates.2 envAllOk _ (by decide)⟩

/-- C3: the planner is total and deterministic over intents — the plan it
writes is a function of the intent alone, each of the six recognized
intents maps to its fixed ordered step list, every other intent maps to the
two-step fallback of the retrieval step followed by response generation,
the written plan is never empty, and `"planning"` is appended to the
ledger. -/
theorem planner_total_deterministic :
    (∀ st : AgentState, (planner_node st).plan = planOf st.intent ∧
      (planner_node st).plan ≠ [] ∧
      (planner_node st).completed_steps = st.completed_steps ++ ["planning"]) ∧
    (planOf "scan_emails" =
      ["email_scanner", "pdf_processor", "data_extractor", "database_saver", "response_generator"] ∧
     planOf "query_history" = ["rag_retriever", "response_generator"] ∧
     planOf "analyze_spending" = ["database_query", "response_generator"] ∧
     planOf "set_reminder" = ["database_query", "reminder_creator", "response_generator"] ∧
     planOf "find_alternatives" = ["database_query", "web_searcher", "response_generator"] ∧
     planOf "manual_add" = ["data_extractor", "database_saver", "response_generator"]) ∧
    (∀ intent : String,
      intent ∉ ["scan_emails", "query_history", "analyze_spending", "set_reminder",
        "find_alternatives", "manual_add"] →
      planOf intent = ["rag_retriever", "response_generator"] ∧ (planOf intent).length = 2) := by
  refine ⟨?_, ⟨rfl, rfl, rfl, rfl, rfl, rfl⟩, ?_⟩
  · intro st
    refine ⟨rfl, ?_, rfl⟩
    show planOf st.intent ≠ []
    unfold planOf
    split_ifs <;> simp
  · intro intent h
    simp only [List.mem_cons, List.not_mem_nil, or_false, not_or] at h
    obtain ⟨h1, h2, h3, h4, h5, h6⟩ := h
    unfold planOf
    rw [if_neg h1, if_neg h2, if_neg h3, if_neg h4, if_neg h5, if_neg h6]
    exact ⟨rfl, rfl⟩

/-- Witness for C3: an unrecognized intent falls to the two-step fallback
plan, and the planner on a concrete state appends `"planning"`. -/
theorem planner_total_deterministic_witness :
    (planOf "tell_joke" = ["rag_retriever", "response_generator"] ∧
      (planOf "tell_joke").length = 2) ∧
    (planner_node { user_query := "q", intent := "scan_emails" }).completed_steps =
      ([] : List String) ++ ["planning"] :=
  ⟨planner_total_deterministic.2.2 "tell_joke" (by decide),
   (planner_total_deterministic.1 { user_query := "q", intent := "scan_emails" }).2.2⟩

/-- C9: the intent classifier is idempotent under re-entry — when
`"intent_classification"` is already in the ledger it returns the state
unchanged, touching no field and recording nothing. -/
theorem intent_classifier_idempotent (env : Env) (st : AgentState)
    (h : "intent_classification" ∈ st.completed_steps) :
    intent_classifier_node env st = st := by
  unfold intent_classifier_node
  exact if_pos h

/-- Witness for C9 at a concrete state whose ledger already holds the
classification step. -/
theorem intent_classifier_idempotent_witness :
    intent_classifier_node envAllOk
      { user_query := "q", completed_steps := ["intent_classification"] } =
      { user_query := "q", completed_steps := ["intent_classification"] } :=
  intent_classifier_idempotent envAllOk _ (by decide)

/-- C7: for the `scan_emails` intent with empty entities the planner writes
exactly the five-step plan — email retrieval, document parsing, structured
extraction, persistence, response generation — and the executor loop visits
those five steps in exactly that order, for every adapter environment. -/
theorem scan_emails_plan_and_order (env : Env) (q : String) :
    (planner_node { user_query := q, intent := "scan_emails", entities := [],
                    completed_steps := ["intent_classification"] }).plan =
      ["email_scanner", "pdf_processor", "data_extractor", "database_saver",
       "response_generator"] ∧
    runTrace env 5 (planner_node { user_query := q, intent := "scan_emails", entities := [],
                                   completed_steps := ["intent_classification"] }) =
      ["email_scanner", "pdf_processor", "data_extractor", "database_saver",
       "response_generator"] := by
  constructor
  · rfl
  · exact runTrace_exact env
      ["email_scanner", "pdf_processor", "data_extractor", "database_saver",
       "response_generator"]
      (planner_node { user_query := q, intent := "scan_emails", entities := [],
                      completed_steps := ["intent_classification"] })
      [] rfl (by decide) (by decide)
      (by
        intro s hs
        have hc : (planner_node { user_query := q, intent := "scan_emails", entities := [],
                                  completed_steps := ["intent_classification"] }).completed_steps =
            ["intent_classification", "planning"] := rfl
        rw [hc]
        fin_cases hs <;> decide)
      (by intro s hs; cases hs)

/-- C8: every node of the engine only appends to the ledger and to the
error list (the existing prefixes survive unchanged), the scheduler never
selects a step already in the ledger, and along the executor loop the
ledger stays duplicate-free, so a step name is appended at most once per
execution. -/
theorem ledger_append_only (env : Env) :
    (∀ f ∈ allNodes env, ∀ st : AgentState,
      (∃ t, (f st).completed_steps = st.completed_steps ++ t) ∧
      (∃ t, (f st).errors = st.errors ++ t)) ∧
    (∀ st : AgentState, should_continue st ≠ "end" →
      should_continue st ∉ st.completed_steps) ∧
    (∀ (fuel : Nat) (st : AgentState), st.completed_steps.Nodup →
      (runSteps env fuel st).completed_steps.Nodup) := by
  refine ⟨?_, ?_, ?_⟩
  · intro f hf st
    simp only [allNodes, List.mem_cons, List.not_mem_nil, or_false] at hf
    rcases hf with rfl | rfl | rfl | rfl | rfl | rfl | rfl | rfl | rfl | rfl | rfl | rfl | rfl
    · obtain ⟨tc, te, h1, h2, _⟩ := intent_classifier_ledger env st
      exact ⟨⟨tc, h1⟩, ⟨te, h2⟩⟩
    · exact ⟨⟨["planning"], rfl⟩, ⟨[], by simp [planner_node]⟩⟩
    · obtain ⟨te, h1, h2, _, _⟩ := email_scanner_ledger env st
      exact ⟨⟨["email_scanner"], h1⟩, ⟨te, h2⟩⟩
    · obtain ⟨te, h1, h2, _, _⟩ := pdf_processor_ledger env st
      exact ⟨⟨["pdf_processor"], h1⟩, ⟨te, h2⟩⟩
    · exact ⟨⟨["data_extractor"], (data_extractor_ledger env st).1⟩,
        ⟨[], by simp [(data_extractor_ledger env st).2.1]⟩⟩
    · exact ⟨⟨["database_saver"], (database_saver_ledger env st).1⟩,
        ⟨[], by simp [(database_saver_ledger env st).2.1]⟩⟩
    · exact ⟨⟨["rag_indexer"], (rag_indexer_ledger st).1⟩,
        ⟨[], by simp [(rag_indexer_ledger st).2]⟩⟩
    · exact ⟨⟨["rag_retriever"], (rag_retriever_ledger env st).1⟩,
        ⟨[], by simp [(rag_retriever_ledger env st).2.1]⟩⟩
    · exact ⟨⟨["database_query"], (database_query_ledger env st).1⟩,
        ⟨[], by simp [(database_query_ledger env st).2.1]⟩⟩
    · exact ⟨⟨["web_searcher"], (web_searcher_ledger env st).1⟩,
        ⟨[], by simp [(web_searcher_ledger env st).2.1]⟩⟩
    · exact ⟨⟨["reminder_creator"], (reminder_creator_ledger st).1⟩,
        ⟨[], by simp [(reminder_creator_ledger st).2.1]⟩⟩
    · obtain ⟨te, h1, h2, _, _⟩ := response_generator_ledger env st
      exact ⟨⟨["response_generator"], h1⟩, ⟨te, h2⟩⟩
    · exact ⟨⟨[], by simp [(error_handler_ledger st).1]⟩,
        ⟨[], by simp [(error_handler_ledger st).2.1]⟩⟩
  · intro st h
    exact (nextStep_mem st.plan st.completed_steps h).2
  · intro fuel
    induction fuel with
    | zero => exact fun st h => h
    | succ n ih =>
      intro st hnd
      unfold runSteps
      dsimp only
      split
      · exact hnd
      · next hne =>
        apply ih
        rcases runStep_cases env (should_continue st) st with ⟨hc, _⟩ | heq
        · rw [hc]
          have hmem := (nextStep_mem st.plan st.completed_steps hne).2
          simp only [List.nodup_append, List.nodup_cons, List.not_mem_nil,
            not_false_eq_true, List.nodup_nil, and_true, true_and]
          exact ⟨hnd, by simpa using hmem⟩
        · rw [heq]; exact hnd

/-- Witness for C8: the classifier on a fresh state only appends, the
scheduler on a fresh one-step plan picks a step outside the ledger, and a
concrete three-fuel run keeps the ledger duplicate-free. -/
theorem ledger_append_only_witness :
    ((∃ t, (intent_classifier_node envAllOk stBare).completed_steps =
        stBare.completed_steps ++ t) ∧
      (∃ t, (intent_classifier_node envAllOk stBare).errors = stBare.errors ++ t)) ∧
    should_continue { user_query := "q", plan := ["web_searcher"] } ∉
      ({ user_query := "q", plan := ["web_searcher"] } : AgentState).completed_steps ∧
    (runSteps envAllOk 3 { user_query := "q", plan := ["web_searcher"] }).completed_steps.Nodup :=
  ⟨(ledger_append_only envAllOk).1 (intent_classifier_node envAllOk) (List.Mem.head _) stBare,
   (ledger_append_only envAllOk).2.1 _ (by decide),
   (ledger_append_only envAllOk).2.2 3 _ (by decide)⟩

/-- Splitting off the last element of the Python list representation. -/
theorem pyCommaSep_snoc : ∀ (xs : List String) (y : String),
    ∃ p : String, pyCommaSep (xs ++ [y]) = p ++ ("'" ++ y ++ "'") := by
  intro xs
  induction xs with
  | nil =>
    intro y
    refine ⟨"", ?_⟩
    rw [String.empty_append]
    rfl
  | cons x xs ih =>
    intro y
    match xs with
    | [] => exact ⟨"'" ++ x ++ "', ", rfl⟩
    | z :: zs =>
      obtain ⟨p, hp⟩ := ih y
      rw [show (x :: z :: zs) ++ [y] = x :: ((z :: zs) ++ [y]) from rfl]
      rw [show pyCommaSep (x :: ((z :: zs) ++ [y])) =
            "'" ++ x ++ "', " ++ pyCommaSep ((z :: zs) ++ [y]) from rfl]
      rw [hp]
      exact ⟨"'" ++ x ++ "', " ++ p, (String.append_assoc _ _ _).symm⟩

/-- C6: when the classification adapter fails with error text `e` (and the
classification step has not already run), the classifier leaves the state
with intent `"unknown"`, the error list extended by exactly the one entry
`"Intent failed: "` followed by `e`, and the ledger untouched; the router
then sends the state to the error terminal, whose final response contains
the literal error text `e`. -/
theorem classification_failure_surfaces_error (env : Env) (st : AgentState) (e : String)
    (hledger : "intent_classification" ∉ st.completed_steps)
    (hfail : (env.classify_intent st.user_query).success = false)
    (herr : (env.classify_intent st.user_query).error = some e) :
    (intent_classifier_node env st).intent = "unknown" ∧
    (intent_classifier_node env st).errors = st.errors ++ ["Intent failed: " ++ e] ∧
    (intent_classifier_node env st).completed_steps = st.completed_steps ∧
    route_after_intent (intent_classifier_node env st) = "error_handler" ∧
    ∃ l r, (error_handler_node (intent_classifier_node env st)).final_response =
      some (l ++ e ++ r) := by
  have hnode : intent_classifier_node env st =
      { st with errors := st.errors ++ ["Intent failed: " ++ e], intent := "unknown" } := by
    unfold intent_classifier_node
    rw [if_neg hledger]
    dsimp only
    rw [if_neg (by simp [hfail]), herr]
    rfl
  rw [hnode]
  refine ⟨rfl, rfl, rfl, by unfold route_after_intent; simp, ?_⟩
  obtain ⟨p, hp⟩ := pyCommaSep_snoc st.errors ("Intent failed: " ++ e)
  refine ⟨"Errors encountered: " ++ ("[" ++ (p ++ ("'" ++ "Intent failed: "))),
    "'" ++ "]", ?_⟩
  unfold error_handler_node pyListRepr
  dsimp only
  rw [hp]
  congr 1
  simp only [String.append_assoc]

/-- Witness for C6 at the concrete all-failing environment, whose
classification error text is `"timeout"`. -/
theorem classification_failure_surfaces_error_witness :
    (intent_classifier_node envAllFail stBare).intent = "unknown" ∧
    (intent_classifier_node envAllFail stBare).errors =
      stBare.errors ++ ["Intent failed: " ++ "timeout"] ∧
    route_after_intent (intent_classifier_node envAllFail stBare) = "error_handler" ∧
    ∃ l r, (error_handler_node (intent_classifier_node envAllFail stBare)).final_response =
      some (l ++ "timeout" ++ r) := by
  obtain ⟨h1, h2, h3, h4, h5⟩ :=
    classification_failure_surfaces_error envAllFail stBare "timeout" (by decide) rfl rfl
  exact ⟨h1, h2, h4, h5⟩

/-- Counterexample to C5 as stated: the database-query tool reports
`success = false`, yet `database_query_node` appends no error string — the
error list stays empty while the ledger still gains the step name. -/
theorem tool_failure_error_claim_counterexample :
    envAllFail.query_database.success = false ∧
    (database_query_node envAllFail stBare).completed_steps =
      stBare.completed_steps ++ ["database_query"] ∧
    (database_query_node envAllFail stBare).errors = stBare.errors :=
  ⟨rfl, rfl, rfl⟩

/-- C5 as amended: when a handler's tool invocation reports
`success = false`, the handler still appends its own step name to the
ledger and leaves the rest of the state — in particular the plan — in a
form that lets the traversal continue; the email scanner (and the response
generator) additionally append an error string, while the retriever, the
database query and the web searcher append none and record the failure only
through an empty or unchanged result slot. -/
theorem tool_failure_forward_progress (env : Env) (st : AgentState) :
    ((env.scan_emails st.user_query (scanRequiresAttachments st)).success = false →
      email_scanner_node env st =
        { st with
            errors := st.errors ++ ["Scan failed: " ++
              pyStr (env.scan_emails st.user_query (scanRequiresAttachments st)).error],
            completed_steps := st.completed_steps ++ ["email_scanner"] }) ∧
    ((env.rag_search st.user_query).success = false →
      rag_retriever_node env st =
        { st with
            retrieved_documents := some [],
            completed_steps := st.completed_steps ++ ["rag_retriever"] }) ∧
    (env.query_database.success = false →
      database_query_node env st =
        { st with completed_steps := st.completed_steps ++ ["database_query"] }) ∧
    ((env.web_search st.user_query).success = false →
      web_searcher_node env st =
        { st with completed_steps := st.completed_steps ++ ["web_searcher"] }) ∧
    (env.OPENAI_API_KEY ≠ "" → (env.generate_response st.user_query).success = false →
      response_generator_node env st =
        { st with
            final_response :=
              some ("I found the documents but couldn't generate a response. Error: " ++
                (env.generate_response st.user_query).error.getD "Unknown error"),
            errors := st.errors ++ ["Response generation failed: " ++
              (env.generate_response st.user_query).error.getD "Unknown error"],
            completed_steps := st.completed_steps ++ ["response_generator"] }) := by
  refine ⟨?_, ?_, ?_, ?_, ?_⟩
  · intro h
    unfold email_scanner_node
    dsimp only
    rw [if_neg (by simp [h])]
  · intro h
    unfold rag_retriever_node
    dsimp only
    rw [if_neg (by simp [h])]
  · intro h
    unfold database_query_node
    dsimp only
    rw [if_neg (by simp [h])]
  · intro h
    unfold web_searcher_node
    dsimp only
    rw [if_neg (by simp [h])]
  · intro hkey h
    unfold response_generator_node
    dsimp only
    rw [if_neg hkey, if_neg (by simp [h])]

/-- Witness for the amended C5 at the concrete all-failing environment. -/
theorem tool_failure_forward_progress_witness :
    database_query_node envAllFail stBare =
      { stBare with completed_steps := stBare.completed_steps ++ ["database_query"] } ∧
    email_scanner_node envAllFail stBare =
      { stBare with
          errors := stBare.errors ++ ["Scan failed: " ++
            pyStr (envAllFail.scan_emails stBare.user_query
              (scanRequiresAttachments stBare)).error],
          completed_steps := stBare.completed_steps ++ ["email_scanner"] } :=
  ⟨(tool_failure_forward_progress envAllFail stBare).2.2.1 rfl,
   (tool_failure_forward_progress envAllFail stBare).1 rfl⟩

/-- C10: whenever the PDF phase of the data extractor yields at least one
item, the email-body fallback is skipped — the `extracted_bills` slot holds
exactly the PDF-derived items and the result is unchanged under any
replacement of the email scan results, so email bodies contribute nothing. -/
theorem pdf_priority_extraction (env : Env) (st : AgentState)
    (h : pdfPhase env (entGet st.entities "email_scan_type" "general")
      (st.pdf_parse_results.getD []) ≠ []) :
    (data_extractor_node env st).extracted_bills =
      some (pdfPhase env (entGet st.entities "email_scan_type" "general")
        (st.pdf_parse_results.getD [])) ∧
    ∀ alt : Option ScanResult,
      (data_extractor_node env { st with email_scan_results := alt }).extracted_bills =
        (data_extractor_node env st).extracted_bills := by
  have key : ∀ alt : Option ScanResult,
      (data_extractor_node env { st with email_scan_results := alt }).extracted_bills =
        some (pdfPhase env (entGet st.entities "email_scan_type" "general")
          (st.pdf_parse_results.getD [])) := by
    intro alt
    unfold data_extractor_node
    dsimp only
    rw [if_neg (by simpa using h)]
  have hst : (data_extractor_node env st).extracted_bills =
      some (pdfPhase env (entGet st.entities "email_scan_type" "general")
        (st.pdf_parse_results.getD [])) := key st.email_scan_results
  exact ⟨hst, fun alt => (key alt).trans hst.symm⟩

/-- Witness for C10 at a concrete state with one parsed PDF and an
all-succeeding environment. -/
theorem pdf_priority_extraction_witness :
    (data_extractor_node envAllOk stPdf).extracted_bills =
      some (pdfPhase envAllOk (entGet stPdf.entities "email_scan_type" "general")
        (stPdf.pdf_parse_results.getD [])) :=
  (pdf_priority_extraction envAllOk stPdf (by decide)).1

/-- C4: the embedded handlers are total functions (under the spec's
tool-adapter contract no tool raises, and every failure path of the source
turns into ledger or error-list updates), and a whole engine run always
ends with some final response text set — for every adapter environment,
including ones whose every call fails. -/
theorem engine_always_responds (env : Env) (q : String) :
    (runEngine env q).final_response.isSome = true := by
  unfold runEngine
  dsimp only
  split
  · exact (error_handler_ledger _).2.2
  · split
    · obtain ⟨te, _, _, _, h4⟩ :=
        response_generator_ledger env (planner_node (intent_classifier_node env (initialState q)))
      exact h4
    · next l hplan =>
      apply runSteps_final_some
      · intro hmem
        exfalso
        have hcomp : (planner_node (intent_classifier_node env (initialState q))).completed_steps =
            (intent_classifier_node env (initialState q)).completed_steps ++ ["planning"] := rfl
        rw [hcomp] at hmem
        rcases classifier_initial_ledger env q with hc | hc <;> rw [hc] at hmem <;>
          exact absurd hmem (by decide)
      · have hplan' : (runSteps env
            ((planner_node (intent_classifier_node env (initialState q))).plan.length + 1)
            (planner_node (intent_classifier_node env (initialState q)))).plan =
            (planner_node (intent_classifier_node env (initialState q))).plan :=
          runSteps_plan env _ _
        have hvocab : ∀ s ∈ (planner_node (intent_classifier_node env (initialState q))).plan,
            s ∈ stepNames := planOf_vocab _
        have hterm := runSteps_terminates env
          ((planner_node (intent_classifier_node env (initialState q))).plan.length + 1)
          (planner_node (intent_classifier_node env (initialState q))) hvocab
          (le_trans (unexec_le_plan_length _) (Nat.le_succ _))
        have hall := nextStep_end_all _ _
          (fun s hs => stepNames_ne_end s (by rw [hplan'] at hs; exact hvocab s hs)) hterm
        apply hall
        rw [hplan']
        exact planOf_has_response_generator _

end BillTracker
